import Mathlib

/- Verification of the tanker storage and transfer-session model.

   Definitions shallowly embed the Go source of buchanae/tanker:
   - storage backend URL joining (GoogleCloud.Join, Swift.Join, ftpJoin)
   - backend configuration validation and dispatch (Valid methods, NewStorage)
   - the Swift chunk-size computation (NewSwift)
   - the FTP Stat listing logic (ftpclient.Stat)
   - context-aware reader and writer wrappers (reader.Read, writer.Write)
   - the git-lfs message loop (Comms.Input, handle, transfer, watchProgress)

   External effects (network, filesystem, environment variables, the panic
   mechanism) are passed in as explicit parameters recording their outcomes,
   so every definition is executable on concrete inputs.
-/

namespace Tanker

/-- Decidable equality for Except values, used to keep the embedded
environments decidable so concrete runs can be checked by evaluation. -/
instance {ε α : Type} [DecidableEq ε] [DecidableEq α] : DecidableEq (Except ε α)
  | Except.ok a, Except.ok b =>
    if h : a = b then Decidable.isTrue (by rw [h])
    else Decidable.isFalse (fun hh => h (Except.ok.inj hh))
  | Except.ok _, Except.error _ => Decidable.isFalse (fun hh => Except.noConfusion hh)
  | Except.error _, Except.ok _ => Decidable.isFalse (fun hh => Except.noConfusion hh)
  | Except.error a, Except.error b =>
    if h : a = b then Decidable.isTrue (by rw [h])
    else Decidable.isFalse (fun hh => h (Except.error.inj hh))

/-! ### Go string primitives, on strings viewed as lists of characters -/

/-- Models Go strings.HasPrefix(s, pre) as startsWithChars pre s. -/
def startsWithChars : List Char → List Char → Bool
  | [], _ => true
  | _ :: _, [] => false
  | p :: ps, c :: cs => p == c && startsWithChars ps cs

/-- Models Go strings.TrimSuffix(s, slash) for the one-character suffix slash:
if s ends with a slash, drop that final character, otherwise return s. -/
def trimSuffixSlash (s : List Char) : List Char :=
  if s.getLast? = some '/' then s.dropLast else s

/-! ### Join operations (storage/util.go and the ftp backend) -/

/-- GoogleCloud.Join: strings.TrimSuffix(url, slash) + slash + path, never fails. -/
def gsJoin (url path : List Char) : List Char :=
  trimSuffixSlash url ++ '/' :: path

/-- Swift.Join: strings.TrimSuffix(url, slash) + slash + path, never fails. -/
def swiftJoin (url path : List Char) : List Char :=
  trimSuffixSlash url ++ '/' :: path

/-- ftpJoin: strings.TrimSuffix(url, slash) + slash + path, never fails. -/
def ftpJoin (url path : List Char) : List Char :=
  trimSuffixSlash url ++ '/' :: path

/-! ### Protocol constants -/

/-- The gs url protocol constant, the characters of gs followed by colon slash slash. -/
def GSProtocol : List Char := ['g', 's', ':', '/', '/']

/-- The swift url protocol constant. -/
def SwiftProtocol : List Char := ['s', 'w', 'i', 'f', 't', ':', '/', '/']

/-- The ftp url protocol constant. -/
def FTPProtocol : List Char := ['f', 't', 'p', ':', '/', '/']

/-! ### Backend configurations and their Valid methods -/

/-- GoogleCloudConfig from storage/util.go. -/
structure GoogleCloudConfig where
  Disabled : Bool
  CredentialsFile : String
deriving DecidableEq

/-- GoogleCloudConfig.Valid: returns not Disabled; no credential field is
required (the client falls back to application default credentials). -/
def GoogleCloudConfig.Valid (g : GoogleCloudConfig) : Bool :=
  !g.Disabled

/-- SwiftConfig from storage/util.go. -/
structure SwiftConfig where
  Disabled : Bool
  UserName : String
  Password : String
  AuthURL : String
  TenantName : String
  TenantID : String
  RegionName : String
  ChunkSizeBytes : Int
  MaxRetries : Int
deriving DecidableEq

/-- SwiftConfig.Valid. The env parameter models os.Getenv, which returns the
empty string for unset variables. Each required field may come from the
configuration or from the environment; the result is
not Disabled and user and password and authURL and tenantName and tenantID
and region, exactly as in the source. -/
def SwiftConfig.Valid (s : SwiftConfig) (env : String → String) : Bool :=
  let user := s.UserName != "" || env "OS_USERNAME" != ""
  let password := s.Password != "" || env "OS_PASSWORD" != ""
  let authURL := s.AuthURL != "" || env "OS_AUTH_URL" != ""
  let tenantName := s.TenantName != "" || env "OS_TENANT_NAME" != "" || env "OS_PROJECT_NAME" != ""
  let tenantID := s.TenantID != "" || env "OS_TENANT_ID" != "" || env "OS_PROJECT_ID" != ""
  let region := s.RegionName != "" || env "OS_REGION_NAME" != ""
  let valid := user && password && authURL && tenantName && tenantID && region
  !s.Disabled && valid

/-- FTPConfig from the ftp backend source. Timeout is modeled as an integer
duration in nanoseconds. -/
structure FTPConfig where
  Disabled : Bool
  Timeout : Int
  User : String
  Password : String
deriving DecidableEq

/-- FTPConfig.Valid: returns not Disabled; user and password have defaults
and may also be embedded in the address, so no field is required. -/
def FTPConfig.Valid (h : FTPConfig) : Bool :=
  !h.Disabled

/-- storage.Config, the aggregate of the three backend configurations. -/
structure Config where
  GoogleCloud : GoogleCloudConfig
  Swift : SwiftConfig
  FTP : FTPConfig
deriving DecidableEq

/-! ### Backend construction (NewSwift chunk size, NewStorage dispatch) -/

/-- The chunk-size computation inside NewSwift (storage/util.go).
In the source the bounds are written 100 times units.MB, 500 times units.MB
and 5 times units.GB, where units.MB is 1000000 and units.GB is 1000000000. -/
def swiftChunkSize (chunkSizeBytes : Int) : Int :=
  if chunkSizeBytes < 100 * 1000000 then 500 * 1000000
  else if chunkSizeBytes > 5 * 1000000000 then 5 * 1000000000
  else chunkSizeBytes

/-- A constructed storage backend. The swift variant records the chunk size
the constructor computed; the ftp variant records the configuration it holds. -/
inductive Backend
  | googleCloud
  | swift (chunkSize : Int)
  | ftp (conf : FTPConfig)
deriving DecidableEq

/-- NewGoogleCloud. The credential loading and HTTP client construction are
external effects; connectRes records their combined outcome (none on success). -/
def NewGoogleCloud (connectRes : Option String) : Except String Backend :=
  match connectRes with
  | some e => Except.error e
  | none => Except.ok Backend.googleCloud

/-- NewSwift. ApplyEnvironment and Authenticate are external effects whose
combined outcome is connectRes; on success the backend carries the chunk size
computed by the clamping logic embedded in swiftChunkSize. -/
def NewSwift (conf : SwiftConfig) (connectRes : Option String) : Except String Backend :=
  match connectRes with
  | some e => Except.error e
  | none => Except.ok (Backend.swift (swiftChunkSize conf.ChunkSizeBytes))

/-- NewFTP: returns the FTP backend holding its configuration; it performs no
network call and never fails in the source. -/
def NewFTP (conf : FTPConfig) : Except String Backend :=
  Except.ok (Backend.ftp conf)

/-- The distinct error shapes produced by NewStorage. Each constructor stands
for one fmt.Errorf site in storage/storage.go: configError for the
failed-to-configure message emitted when Valid() is false, ctorError for the
message wrapping a constructor failure, unsupportedProtocol for the
failed-to-find-matching-storage-backend message. -/
inductive StorageError
  | unsupportedProtocol (url : List Char)
  | configError (backend : String)
  | ctorError (backend : String) (e : String)
deriving DecidableEq

/-- Which backend constructors NewStorage actually invoked. The constructors
for gs and swift open network connections; an empty trace means no
construction (hence no network connection) was attempted. -/
inductive CtorCall
  | gcCtor
  | swiftCtor
  | ftpCtor
deriving DecidableEq

/-- NewStorage from storage/storage.go: dispatch on the URL protocol
in source order (gs, then swift, then ftp), checking Valid() before invoking
the backend constructor. Returns the result together with the list of
constructors invoked. -/
def NewStorage (url : List Char) (conf : Config) (env : String → String)
    (gcConnect swiftConnect : Option String) :
    Except StorageError Backend × List CtorCall :=
  if startsWithChars GSProtocol url then
    if !conf.GoogleCloud.Valid then (Except.error (StorageError.configError "gs"), [])
    else
      match NewGoogleCloud gcConnect with
      | Except.error e => (Except.error (StorageError.ctorError "gs" e), [CtorCall.gcCtor])
      | Except.ok b => (Except.ok b, [CtorCall.gcCtor])
  else if startsWithChars SwiftProtocol url then
    if !(conf.Swift.Valid env) then (Except.error (StorageError.configError "swift"), [])
    else
      match NewSwift conf.Swift swiftConnect with
      | Except.error e => (Except.error (StorageError.ctorError "swift" e), [CtorCall.swiftCtor])
      | Except.ok b => (Except.ok b, [CtorCall.swiftCtor])
  else if startsWithChars FTPProtocol url then
    if !conf.FTP.Valid then (Except.error (StorageError.configError "ftp"), [])
    else
      match NewFTP conf.FTP with
      | Except.error e => (Except.error (StorageError.ctorError "ftp" e), [CtorCall.ftpCtor])
      | Except.ok b => (Except.ok b, [CtorCall.ftpCtor])
  else (Except.error (StorageError.unsupportedProtocol url), [])

/-! ### The FTP Stat operation (ftpclient.Stat) -/

/-- The ftp entry kinds of the client library: regular file, folder, link. -/
inductive EntryType
  | file
  | folder
  | link
deriving DecidableEq

/-- One entry of an FTP LIST response. The source fields are Name, Type,
Size and Time; Time is abstracted to an integer timestamp. -/
structure FtpEntry where
  name : String
  type : EntryType
  size : Int
  time : Int
deriving DecidableEq

/-- storage.Object metadata. LastModified is abstracted to an integer. -/
structure Object where
  URL : String
  Name : String
  ETag : String
  LastModified : Int
  Size : Int
deriving DecidableEq

/-- The error sites of ftpclient.Stat, one constructor per fmt.Errorf call:
parsing the URL, listing the path, the object-not-found message produced when
the listing does not have exactly one entry, and the
stat-on-non-regular-file-type message. -/
inductive FtpStatError
  | parseError (e : String)
  | listError (path : String)
  | notFound (url : String)
  | nonRegularFile (url : String)
deriving DecidableEq

/-- Models Go strings.TrimPrefix(s, slash): drop a single leading slash. -/
def trimLeadSlash (s : String) : String :=
  if s.startsWith "/" then s.drop 1 else s

/-- ftpclient.Stat. upath is the result of url.Parse (giving u.Path);
listRes gives the outcome of client.List on a path. The source checks, in
order: parse failure, listing failure, length of the response different from
one (object not found), entry type not a regular file, and only then builds
the Object. -/
def ftpStat (url : String) (upath : Except String String)
    (listRes : String → Except String (List FtpEntry)) : Except FtpStatError Object :=
  match upath with
  | Except.error e => Except.error (FtpStatError.parseError e)
  | Except.ok path =>
    match listRes path with
    | Except.error _ => Except.error (FtpStatError.listError path)
    | Except.ok [r] =>
      if r.type ≠ EntryType.file then Except.error (FtpStatError.nonRegularFile url)
      else Except.ok
        { URL := url, Name := trimLeadSlash path, ETag := "",
          LastModified := r.time, Size := r.size }
    | Except.ok _ => Except.error (FtpStatError.notFound url)

/-! ### Context-aware reader and writer (storage/util.go reader.Read, util.go writer.Write) -/

/-- reader.Read: errBefore and errAfter are the values of ctx.Err() observed
at the check before and after the underlying read; underlying is the pair
(n, err) the wrapped reader would return. The result is the returned
(n, err) pair together with a flag telling whether the underlying read was
invoked at all. -/
def ctxRead (errBefore : Option String) (underlying : Int × Option String)
    (errAfter : Option String) : (Int × Option String) × Bool :=
  match errBefore with
  | some e => ((0, some e), false)
  | none =>
    match underlying with
    | (n, some e) => ((n, some e), true)
    | (n, none) => ((n, errAfter), true)

/-- writer.Write, identical in structure to reader.Read. -/
def ctxWrite (errBefore : Option String) (underlying : Int × Option String)
    (errAfter : Option String) : (Int × Option String) × Bool :=
  match errBefore with
  | some e => ((0, some e), false)
  | none =>
    match underlying with
    | (n, some e) => ((n, some e), true)
    | (n, none) => ((n, errAfter), true)

/-! ### Comms.Input -/

/-- The parsed inbound messages Comms.Input can return. -/
inductive ParsedMsg
  | initMsg (operation remote : String) (concurrent : Bool) (concurrentTransfers : Int)
  | uploadMsg (oid : String) (size : Int) (path : String)
  | downloadMsg (oid : String) (size : Int)
  | terminateMsg
deriving DecidableEq

/-- Comms.Input. more is the value of scanner.Scan(), scanErr of
scanner.Err(); wrapper is the result of unmarshaling the event field; body
gives, per event name, the result of unmarshaling the full message of that
variant (including the wrapping of its error message). In the source the
end-of-input test reads err equal to io.EOF or not more, but err is nil on
that line, so it is exactly not more. -/
def commsInput (more : Bool) (scanErr : Option String)
    (wrapper : Except String String)
    (body : String → Except String ParsedMsg) : Except String ParsedMsg :=
  match scanErr with
  | some e => Except.error ("scanning for input message: " ++ e)
  | none =>
    if more = false then Except.ok ParsedMsg.terminateMsg
    else
      match wrapper with
      | Except.error e => Except.error ("unmarshaling message wrapper: " ++ e)
      | Except.ok ev =>
        if ev = "init" then body "init"
        else if ev = "upload" then body "upload"
        else if ev = "download" then body "download"
        else if ev = "terminate" then Except.ok ParsedMsg.terminateMsg
        else Except.error ("unknown message type: " ++ ev)

/-! ### The transfer session (handle, transfer, watchProgress) -/

/-- The outbound messages the session emits: the empty init acknowledgement,
progress, complete and error records. The error code is always 1 in the
source, so only the message text is recorded. -/
inductive OutMsg
  | initialized
  | progress (oid : String) (bytesSoFar bytesSinceLast : Int)
  | complete (oid : String) (path : String)
  | error (oid : String) (msg : String)
deriving DecidableEq

/-- UploadMessage fields. -/
structure UploadMsg where
  oid : String
  size : Int
  path : String
deriving DecidableEq

/-- DownloadMessage fields. -/
structure DownloadMsg where
  oid : String
  size : Int
deriving DecidableEq

/-- The outcome of the storage call inside handle: a normal return with nil
error, a normal return with an error, or a runtime panic raised during the
call (the panic payload is the error text handlePanic would extract). -/
inductive PutOutcome
  | ok
  | err (e : String)
  | panicked (p : String)
deriving DecidableEq

/-- The external outcomes consumed while handling one UploadMessage:
the result of store.Join, of os.Open on the source path, of store.Put, and
the cumulative byte counts the progress ticker sampled during the transfer. -/
structure UploadEnv where
  joinRes : Except String String
  openRes : Except String Unit
  putRes : PutOutcome
  samples : List Int
deriving DecidableEq

/-- The external outcomes consumed while handling one DownloadMessage:
filepath.Abs, store.Join, os.Create, store.Get, dest.Close and the progress
samples. -/
structure DownloadEnv where
  absRes : Except String String
  joinRes : Except String String
  createRes : Except String Unit
  getRes : PutOutcome
  closeErr : Option String
  samples : List Int
deriving DecidableEq

/-- handlePanic turns a recovered panic value into an error whose text starts
with the word panic (the stack trace suffix is omitted here). -/
def panicToError (p : String) : String :=
  "panic: " ++ p

/-- The loop body of watchProgress (the transfer source revision): for each
sampled cumulative count, emit a progress message whose bytesSoFar is the
sample and whose bytesSinceLast is the difference from the previous sample,
carried in last. -/
def watchProgressFrom (oid : String) (last : Int) : List Int → List OutMsg
  | [] => []
  | s :: rest => OutMsg.progress oid s (s - last) :: watchProgressFrom oid s rest

/-- watchProgress: the ticker starts with last equal to zero. -/
def watchProgress (oid : String) (samples : List Int) : List OutMsg :=
  watchProgressFrom oid 0 samples

/-- The UploadMessage case of handle. On a Join error, send an error message
and return nil. On an os.Open error, return an error from handle (no message
is sent). Otherwise the progress watcher emits its messages while Put runs;
then a Put error sends an error message (returning nil), a Put success sends
a complete message, and a panic is recovered by handlePanic into the returned
error, with no further message sent. -/
def handleUpload (m : UploadMsg) (env : UploadEnv) : List OutMsg × Option String :=
  match env.joinRes with
  | Except.error e => ([OutMsg.error m.oid e], none)
  | Except.ok _url =>
    match env.openRes with
    | Except.error e => ([], some ("opening source file: " ++ e))
    | Except.ok _ =>
      match env.putRes with
      | PutOutcome.panicked p => (watchProgress m.oid env.samples, some (panicToError p))
      | PutOutcome.err e => (watchProgress m.oid env.samples ++ [OutMsg.error m.oid e], none)
      | PutOutcome.ok => (watchProgress m.oid env.samples ++ [OutMsg.complete m.oid ""], none)

/-- The DownloadMessage case of handle. filepath.Abs failure and os.Create
failure return an error from handle; a Join failure sends an error message
and returns nil; after Get, a Get error then a Close error each send an error
message (returning nil); otherwise a complete message carrying the absolute
path is sent. A panic during Get is recovered into the returned error. -/
def handleDownload (m : DownloadMsg) (env : DownloadEnv) : List OutMsg × Option String :=
  match env.absRes with
  | Except.error e => ([], some ("determining download path: " ++ e))
  | Except.ok abspath =>
    match env.joinRes with
    | Except.error e => ([OutMsg.error m.oid e], none)
    | Except.ok _url =>
      match env.createRes with
      | Except.error e => ([], some ("opening dest path: " ++ e))
      | Except.ok _ =>
        match env.getRes with
        | PutOutcome.panicked p => (watchProgress m.oid env.samples, some (panicToError p))
        | PutOutcome.err e => (watchProgress m.oid env.samples ++ [OutMsg.error m.oid e], none)
        | PutOutcome.ok =>
          match env.closeErr with
          | some ce => (watchProgress m.oid env.samples ++ [OutMsg.error m.oid ce], none)
          | none => (watchProgress m.oid env.samples ++ [OutMsg.complete m.oid abspath], none)

/-- One inbound message together with the external outcomes its handling
consumes. -/
inductive InMsg
  | init
  | upload (m : UploadMsg) (env : UploadEnv)
  | download (m : DownloadMsg) (env : DownloadEnv)
  | terminate
  | unknown (desc : String)
deriving DecidableEq

/-- handle: the per-message dispatch. Init sends the empty acknowledgement,
Terminate does nothing, an unrecognized message returns an error. -/
def handle : InMsg → List OutMsg × Option String
  | InMsg.init => ([OutMsg.initialized], none)
  | InMsg.upload m env => handleUpload m env
  | InMsg.download m env => handleDownload m env
  | InMsg.terminate => ([], none)
  | InMsg.unknown d => ([], some ("unknown message type " ++ d))

/-- The session loop of transfer: read a message, handle it, stop with the
error if handle returned one, stop cleanly after a Terminate message,
otherwise continue with the next message. An exhausted input list models
Comms.Input reporting end of input, which yields a Terminate message, so the
loop ends cleanly. The result collects every emitted message and the error,
if any, with which the loop aborted. -/
def transferLoop : List InMsg → List OutMsg × Option String
  | [] => ([], none)
  | msg :: rest =>
    match handle msg with
    | (out, some e) => (out, some e)
    | (out, none) =>
      match msg with
      | InMsg.terminate => (out, none)
      | _ =>
        match transferLoop rest with
        | (out2, r) => (out ++ out2, r)

/-- A terminal message for the given oid: a complete or an error record
addressed to it. -/
def isTerminal (oid : String) : OutMsg → Bool
  | OutMsg.complete o _ => o == oid
  | OutMsg.error o _ => o == oid
  | _ => false

/-- The bytesSoFar values of the progress messages for the given oid, in
emission order. -/
def bytesSoFarList (oid : String) (out : List OutMsg) : List Int :=
  out.filterMap fun x =>
    match x with
    | OutMsg.progress o b _ => if o == oid then some b else none
    | _ => none

/-- Every progress message in the list carries as bytesSinceLast exactly the
difference between its bytesSoFar and the bytesSoFar of the previous progress
message (last before the first). -/
def progressDeltasFrom (last : Int) : List OutMsg → Prop
  | [] => True
  | OutMsg.progress _ b d :: rest => d = b - last ∧ progressDeltasFrom b rest
  | _ :: rest => progressDeltasFrom last rest

end Tanker

namespace Tanker

theorem trimSuffixSlash_concat (y : List Char) :
    trimSuffixSlash (y ++ ['/']) = y := by
  unfold trimSuffixSlash
  rw [List.getLast?_concat]
  simp

/-- C2 counterexample: for the valid bases and the object identifier abc,
joining the joined address with an empty subpath appends a trailing slash,
so it differs from the single join, for each of the three backends. -/
theorem c2_join_counterexample :
    gsJoin (gsJoin ['g', 's', ':', '/', '/', 'b'] ['a', 'b', 'c']) [] ≠
      gsJoin ['g', 's', ':', '/', '/', 'b'] ['a', 'b', 'c'] ∧
    swiftJoin (swiftJoin ['s', 'w', 'i', 'f', 't', ':', '/', '/', 'b'] ['a', 'b', 'c']) [] ≠
      swiftJoin ['s', 'w', 'i', 'f', 't', ':', '/', '/', 'b'] ['a', 'b', 'c'] ∧
    ftpJoin (ftpJoin ['f', 't', 'p', ':', '/', '/', 'h'] ['a', 'b', 'c']) [] ≠
      ftpJoin ['f', 't', 'p', ':', '/', '/', 'h'] ['a', 'b', 'c'] := by
  decide

/-- C2 (amended): joining with an empty subpath normalizes an address to end
in a slash, and a second empty join is then the identity: for every address x
and each of the three Join operations, Join(Join(x, empty), empty) equals
Join(x, empty); in particular this holds for x equal to Join(a, oid). -/
theorem c2_join_empty_idem (x : List Char) :
    gsJoin (gsJoin x []) [] = gsJoin x [] ∧
    swiftJoin (swiftJoin x []) [] = swiftJoin x [] ∧
    ftpJoin (ftpJoin x []) [] = ftpJoin x [] := by
  refine ⟨?_, ?_, ?_⟩ <;>
    simp [gsJoin, swiftJoin, ftpJoin, trimSuffixSlash_concat]

/-- Witness for C2 at a concrete joined address. -/
theorem c2_join_empty_idem_witness :
    gsJoin (gsJoin ['g', 's', ':', '/', '/', 'b', '/', 'a'] []) []
      = gsJoin ['g', 's', ':', '/', '/', 'b', '/', 'a'] [] ∧
    swiftJoin (swiftJoin ['g', 's', ':', '/', '/', 'b', '/', 'a'] []) []
      = swiftJoin ['g', 's', ':', '/', '/', 'b', '/', 'a'] [] ∧
    ftpJoin (ftpJoin ['g', 's', ':', '/', '/', 'b', '/', 'a'] []) []
      = ftpJoin ['g', 's', ':', '/', '/', 'b', '/', 'a'] [] :=
  c2_join_empty_idem ['g', 's', ':', '/', '/', 'b', '/', 'a']

/-- C6: the chunk size of the constructed Swift backend is the configured
value clamped as the source writes it: below the 100 MB floor (and in
particular when unset, zero) it becomes the 500 MB default, above 5 GB it
becomes 5 GB, in between it is unchanged, and the result always lies between
100 MB and 5 GB. -/
theorem c6_swift_chunk_size (conf : SwiftConfig) :
    NewSwift conf none = Except.ok (Backend.swift (swiftChunkSize conf.ChunkSizeBytes)) ∧
    (conf.ChunkSizeBytes < 100 * 1000000 →
      swiftChunkSize conf.ChunkSizeBytes = 500 * 1000000) ∧
    (conf.ChunkSizeBytes > 5 * 1000000000 →
      swiftChunkSize conf.ChunkSizeBytes = 5 * 1000000000) ∧
    (100 * 1000000 ≤ conf.ChunkSizeBytes → conf.ChunkSizeBytes ≤ 5 * 1000000000 →
      swiftChunkSize conf.ChunkSizeBytes = conf.ChunkSizeBytes) ∧
    100 * 1000000 ≤ swiftChunkSize conf.ChunkSizeBytes ∧
    swiftChunkSize conf.ChunkSizeBytes ≤ 5 * 1000000000 := by
  constructor
  · rfl
  refine ⟨fun h => ?_, fun h => ?_, fun h1 h2 => ?_, ?_, ?_⟩ <;>
    unfold swiftChunkSize <;> split_ifs <;> omega

/-- Witness for C6 at an unset (zero) chunk size. -/
theorem c6_swift_chunk_size_witness :
    NewSwift ⟨false, "", "", "", "", "", "", 0, 3⟩ none
      = Except.ok (Backend.swift (swiftChunkSize 0)) ∧
    swiftChunkSize 0 = 500 * 1000000 :=
  ⟨(c6_swift_chunk_size ⟨false, "", "", "", "", "", "", 0, 3⟩).1,
   (c6_swift_chunk_size ⟨false, "", "", "", "", "", "", 0, 3⟩).2.1 (by norm_num)⟩

/-- C5: whenever the FTP listing succeeds but returns a number of entries
different from one, Stat returns the object-not-found error and never an
Object. -/
theorem c5_stat_not_found (url path : String)
    (listRes : String → Except String (List FtpEntry)) (resp : List FtpEntry)
    (hl : listRes path = Except.ok resp) (hn : resp.length ≠ 1) :
    ftpStat url (Except.ok path) listRes = Except.error (FtpStatError.notFound url) := by
  simp only [ftpStat]
  rw [hl]
  rcases resp with _ | ⟨r, rest⟩
  · rfl
  · rcases rest with _ | ⟨b, t⟩
    · exact absurd rfl hn
    · rfl

/-- Witness for C5 on an empty listing. -/
theorem c5_stat_not_found_witness :
    ftpStat "ftp://h/p" (Except.ok "/p") (fun _ => Except.ok [])
      = Except.error (FtpStatError.notFound "ftp://h/p") :=
  c5_stat_not_found "ftp://h/p" "/p" (fun _ => Except.ok []) [] rfl (by decide)

/-- C10: when the FTP listing returns exactly one entry that is not a regular
file, Stat returns the non-regular-file error and never an Object. -/
theorem c10_stat_non_regular (url path : String)
    (listRes : String → Except String (List FtpEntry)) (r : FtpEntry)
    (hl : listRes path = Except.ok [r]) (ht : r.type ≠ EntryType.file) :
    ftpStat url (Except.ok path) listRes
      = Except.error (FtpStatError.nonRegularFile url) := by
  simp only [ftpStat]
  rw [hl]
  simp [ht]

/-- Witness for C10 on a single folder entry. -/
theorem c10_stat_non_regular_witness :
    ftpStat "ftp://h/d" (Except.ok "/d")
        (fun _ => Except.ok [⟨"d", EntryType.folder, 0, 0⟩])
      = Except.error (FtpStatError.nonRegularFile "ftp://h/d") :=
  c10_stat_non_regular "ftp://h/d" "/d"
    (fun _ => Except.ok [⟨"d", EntryType.folder, 0, 0⟩])
    ⟨"d", EntryType.folder, 0, 0⟩ rfl (by decide)

/-- C8: on the context-wrapped reader and writer, a cancellation observed
before the operation returns the cancellation error immediately without
invoking the underlying stream; otherwise the underlying operation is
invoked, its error (if any) is returned as is, and on its success the
cancellation signal observed after the operation is returned, so a
cancellation during a successful operation is reported by that same call. -/
theorem c8_ctx_io (eb ea : Option String) (n : Int) (ue : Option String) :
    (∀ e, eb = some e →
      ctxRead eb (n, ue) ea = ((0, some e), false) ∧
      ctxWrite eb (n, ue) ea = ((0, some e), false)) ∧
    (eb = none →
      (ctxRead eb (n, ue) ea).2 = true ∧
      (ctxWrite eb (n, ue) ea).2 = true ∧
      (ue = none → ctxRead eb (n, ue) ea = ((n, ea), true) ∧
                   ctxWrite eb (n, ue) ea = ((n, ea), true)) ∧
      (∀ e, ue = some e → ctxRead eb (n, ue) ea = ((n, some e), true) ∧
                          ctxWrite eb (n, ue) ea = ((n, some e), true))) := by
  constructor
  · rintro e rfl
    exact ⟨rfl, rfl⟩
  · rintro rfl
    refine ⟨?_, ?_, ?_, ?_⟩
    · cases ue <;> rfl
    · cases ue <;> rfl
    · rintro rfl
      exact ⟨rfl, rfl⟩
    · rintro e rfl
      exact ⟨rfl, rfl⟩

/-- Witness for C8: a cancellation before the call, and one after a
successful underlying operation. -/
theorem c8_ctx_io_witness :
    ctxRead (some "context canceled") (5, none) none
      = ((0, some "context canceled"), false) ∧
    ctxRead none (5, none) (some "context canceled")
      = ((5, some "context canceled"), true) ∧
    ctxWrite none (5, none) (some "context canceled")
      = ((5, some "context canceled"), true) :=
  ⟨((c8_ctx_io (some "context canceled") none 5 none).1 "context canceled" rfl).1,
   (((c8_ctx_io none (some "context canceled") 5 none).2 rfl).2.2.1 rfl).1,
   (((c8_ctx_io none (some "context canceled") 5 none).2 rfl).2.2.1 rfl).2⟩

/-- C9: when the scanner reports no further lines and no error, Comms.Input
returns a Terminate message and no error, and the session loop treats a
Terminate message as a clean exit, emitting nothing and processing no
further input. -/
theorem c9_eof_terminates (wrapper : Except String String)
    (body : String → Except String ParsedMsg) (rest : List InMsg) :
    commsInput false none wrapper body = Except.ok ParsedMsg.terminateMsg ∧
    handle InMsg.terminate = ([], none) ∧
    transferLoop (InMsg.terminate :: rest) = ([], none) :=
  ⟨rfl, rfl, rfl⟩

/-- Witness for C9 at a concrete wrapper and body. -/
theorem c9_eof_terminates_witness :
    commsInput false none (Except.ok "upload")
        (fun _ => Except.ok ParsedMsg.terminateMsg)
      = Except.ok ParsedMsg.terminateMsg :=
  (c9_eof_terminates (Except.ok "upload")
    (fun _ => Except.ok ParsedMsg.terminateMsg) []).1

/-- A url with the swift protocol does not have the gs protocol. -/
theorem swift_not_gs (url : List Char)
    (h : startsWithChars SwiftProtocol url = true) :
    startsWithChars GSProtocol url = false := by
  cases url with
  | nil => exact absurd h (by decide)
  | cons c cs =>
    have hc : c = 's' := by
      have h1 : (('s' : Char) == c && startsWithChars ['w', 'i', 'f', 't', ':', '/', '/'] cs)
          = true := h
      rw [Bool.and_eq_true] at h1
      exact (beq_iff_eq.mp h1.1).symm
    subst hc
    show (('g' : Char) == 's' && startsWithChars ['s', ':', '/', '/'] cs) = false
    rw [show (('g' : Char) == 's') = false from by decide, Bool.false_and]

/-- A url with the ftp protocol does not have the gs protocol. -/
theorem ftp_not_gs (url : List Char)
    (h : startsWithChars FTPProtocol url = true) :
    startsWithChars GSProtocol url = false := by
  cases url with
  | nil => exact absurd h (by decide)
  | cons c cs =>
    have hc : c = 'f' := by
      have h1 : (('f' : Char) == c && startsWithChars ['t', 'p', ':', '/', '/'] cs) = true := h
      rw [Bool.and_eq_true] at h1
      exact (beq_iff_eq.mp h1.1).symm
    subst hc
    show (('g' : Char) == 'f' && startsWithChars ['s', ':', '/', '/'] cs) = false
    rw [show (('g' : Char) == 'f') = false from by decide, Bool.false_and]

/-- A url with the ftp protocol does not have the swift protocol. -/
theorem ftp_not_swift (url : List Char)
    (h : startsWithChars FTPProtocol url = true) :
    startsWithChars SwiftProtocol url = false := by
  cases url with
  | nil => exact absurd h (by decide)
  | cons c cs =>
    have hc : c = 'f' := by
      have h1 : (('f' : Char) == c && startsWithChars ['t', 'p', ':', '/', '/'] cs) = true := h
      rw [Bool.and_eq_true] at h1
      exact (beq_iff_eq.mp h1.1).symm
    subst hc
    show (('s' : Char) == 'f' && startsWithChars ['w', 'i', 'f', 't', ':', '/', '/'] cs) = false
    rw [show (('s' : Char) == 'f') = false from by decide, Bool.false_and]

/-- C4 counterexample: with the gs protocol and a valid (not disabled)
configuration, a failing constructor, for example an unreadable credentials
file, makes NewStorage return an error, not the backend. -/
theorem c4_counterexample :
    NewStorage ['g', 's', ':', '/', '/', 'b']
        ⟨⟨false, ""⟩, ⟨false, "", "", "", "", "", "", 0, 3⟩, ⟨false, 0, "", ""⟩⟩
        (fun _ => "") (some "reading credentials file failed") none
      = (Except.error (StorageError.ctorError "gs" "reading credentials file failed"),
         [CtorCall.gcCtor]) := by
  rfl

/-- C4 (amended): NewStorage dispatches purely on the protocol of the url.
A url with none of the three protocols yields the unsupported-protocol
error with no constructor invoked; a recognized protocol whose configuration
is invalid yields the configuration error with no constructor invoked, hence
before any network connection is attempted; a recognized protocol with a
valid configuration invokes the corresponding constructor and yields that
backend when construction succeeds (the ftp constructor always succeeds). -/
theorem c4_new_storage (url : List Char) (conf : Config) (env : String → String)
    (gcConnect swiftConnect : Option String) :
    (startsWithChars GSProtocol url = false → startsWithChars SwiftProtocol url = false →
      startsWithChars FTPProtocol url = false →
      NewStorage url conf env gcConnect swiftConnect
        = (Except.error (StorageError.unsupportedProtocol url), [])) ∧
    (startsWithChars GSProtocol url = true → conf.GoogleCloud.Valid = false →
      NewStorage url conf env gcConnect swiftConnect
        = (Except.error (StorageError.configError "gs"), [])) ∧
    (startsWithChars SwiftProtocol url = true → conf.Swift.Valid env = false →
      NewStorage url conf env gcConnect swiftConnect
        = (Except.error (StorageError.configError "swift"), [])) ∧
    (startsWithChars FTPProtocol url = true → conf.FTP.Valid = false →
      NewStorage url conf env gcConnect swiftConnect
        = (Except.error (StorageError.configError "ftp"), [])) ∧
    (startsWithChars GSProtocol url = true → conf.GoogleCloud.Valid = true →
      gcConnect = none →
      NewStorage url conf env gcConnect swiftConnect
        = (Except.ok Backend.googleCloud, [CtorCall.gcCtor])) ∧
    (startsWithChars SwiftProtocol url = true → conf.Swift.Valid env = true →
      swiftConnect = none →
      NewStorage url conf env gcConnect swiftConnect
        = (Except.ok (Backend.swift (swiftChunkSize conf.Swift.ChunkSizeBytes)),
           [CtorCall.swiftCtor])) ∧
    (startsWithChars FTPProtocol url = true → conf.FTP.Valid = true →
      NewStorage url conf env gcConnect swiftConnect
        = (Except.ok (Backend.ftp conf.FTP), [CtorCall.ftpCtor])) := by
  refine ⟨?_, ?_, ?_, ?_, ?_, ?_, ?_⟩
  · intro h1 h2 h3
    simp [NewStorage, h1, h2, h3]
  · intro h1 h2
    simp [NewStorage, h1, h2]
  · intro h1 h2
    simp [NewStorage, swift_not_gs url h1, h1, h2]
  · intro h1 h2
    simp [NewStorage, ftp_not_gs url h1, ftp_not_swift url h1, h1, h2]
  · intro h1 h2 h3
    subst h3
    simp [NewStorage, h1, h2, NewGoogleCloud]
  · intro h1 h2 h3
    subst h3
    simp [NewStorage, swift_not_gs url h1, h1, h2, NewSwift]
  · intro h1 h2
    simp [NewStorage, ftp_not_gs url h1, ftp_not_swift url h1, h1, h2, NewFTP]

/-- Witness for C4: an unrecognized protocol yields the unsupported error
with no constructor invoked, and a valid ftp configuration yields the ftp
backend. -/
theorem c4_new_storage_witness :
    NewStorage ['h', 't', 't', 'p', ':']
        ⟨⟨false, ""⟩, ⟨false, "", "", "", "", "", "", 0, 3⟩, ⟨false, 0, "", ""⟩⟩
        (fun _ => "") none none
      = (Except.error (StorageError.unsupportedProtocol ['h', 't', 't', 'p', ':']), []) ∧
    NewStorage ['f', 't', 'p', ':', '/', '/', 'h']
        ⟨⟨false, ""⟩, ⟨false, "", "", "", "", "", "", 0, 3⟩, ⟨false, 0, "", ""⟩⟩
        (fun _ => "") none none
      = (Except.ok (Backend.ftp ⟨false, 0, "", ""⟩), [CtorCall.ftpCtor]) :=
  ⟨(c4_new_storage ['h', 't', 't', 'p', ':']
      ⟨⟨false, ""⟩, ⟨false, "", "", "", "", "", "", 0, 3⟩, ⟨false, 0, "", ""⟩⟩
      (fun _ => "") none none).1 (by decide) (by decide) (by decide),
   (c4_new_storage ['f', 't', 'p', ':', '/', '/', 'h']
      ⟨⟨false, ""⟩, ⟨false, "", "", "", "", "", "", 0, 3⟩, ⟨false, 0, "", ""⟩⟩
      (fun _ => "") none none).2.2.2.2.2.2 (by decide) rfl⟩

/-- C7: a Swift configuration that is not disabled but misses any one of the
six required credential groups (in both the configuration and the
environment) is not Valid, and NewStorage on a swift url with it returns the
configuration error without invoking any backend constructor, hence without
a network call. The GoogleCloud and FTP configurations require no credential
field (their Valid methods only check the disabled flag), so no such missing
field exists for them. -/
theorem c7_missing_credential (conf : Config) (env : String → String) (url : List Char)
    (gcConnect swiftConnect : Option String)
    (hd : conf.Swift.Disabled = false)
    (hurl : startsWithChars SwiftProtocol url = true)
    (hmiss :
      (conf.Swift.UserName = "" ∧ env "OS_USERNAME" = "") ∨
      (conf.Swift.Password = "" ∧ env "OS_PASSWORD" = "") ∨
      (conf.Swift.AuthURL = "" ∧ env "OS_AUTH_URL" = "") ∨
      (conf.Swift.TenantName = "" ∧ env "OS_TENANT_NAME" = "" ∧
        env "OS_PROJECT_NAME" = "") ∨
      (conf.Swift.TenantID = "" ∧ env "OS_TENANT_ID" = "" ∧
        env "OS_PROJECT_ID" = "") ∨
      (conf.Swift.RegionName = "" ∧ env "OS_REGION_NAME" = "")) :
    conf.Swift.Valid env = false ∧
    NewStorage url conf env gcConnect swiftConnect
      = (Except.error (StorageError.configError "swift"), []) := by
  have hv : conf.Swift.Valid env = false := by
    unfold SwiftConfig.Valid
    rcases hmiss with ⟨h1, h2⟩ | ⟨h1, h2⟩ | ⟨h1, h2⟩ | ⟨h1, h2, h3⟩ | ⟨h1, h2, h3⟩ | ⟨h1, h2⟩ <;>
      simp [h1, h2, *]
  refine ⟨hv, ?_⟩
  simp [NewStorage, swift_not_gs url hurl, hurl, hv]

/-- Witness for C7: an enabled Swift configuration with every credential
left empty and an empty environment. -/
theorem c7_missing_credential_witness :
    SwiftConfig.Valid ⟨false, "", "", "", "", "", "", 0, 3⟩ (fun _ => "") = false ∧
    NewStorage ['s', 'w', 'i', 'f', 't', ':', '/', '/', 'c']
        ⟨⟨false, ""⟩, ⟨false, "", "", "", "", "", "", 0, 3⟩, ⟨false, 0, "", ""⟩⟩
        (fun _ => "") none none
      = (Except.error (StorageError.configError "swift"), []) :=
  c7_missing_credential
    ⟨⟨false, ""⟩, ⟨false, "", "", "", "", "", "", 0, 3⟩, ⟨false, 0, "", ""⟩⟩
    (fun _ => "") ['s', 'w', 'i', 'f', 't', ':', '/', '/', 'c'] none none rfl
    (by decide) (Or.inl ⟨rfl, rfl⟩)

/-- Every message the progress watcher emits is a progress message for its
object identifier. -/
theorem watchProgressFrom_progress (oid : String) (last : Int) (ss : List Int) :
    ∀ x ∈ watchProgressFrom oid last ss, ∃ b d, x = OutMsg.progress oid b d := by
  induction ss generalizing last with
  | nil =>
    intro x hx
    simp [watchProgressFrom] at hx
  | cons s rest ih =>
    intro x hx
    simp only [watchProgressFrom, List.mem_cons] at hx
    rcases hx with rfl | hx
    · exact ⟨s, s - last, rfl⟩
    · exact ih s x hx

/-- No message the progress watcher emits is a terminal message. -/
theorem watchProgress_not_terminal (oid oid2 : String) (ss : List Int) (last : Int) :
    ∀ x ∈ watchProgressFrom oid last ss, isTerminal oid2 x = false := by
  intro x hx
  obtain ⟨b, d, rfl⟩ := watchProgressFrom_progress oid last ss x hx
  rfl

/-- The bytesSoFar values of a progress message for the same oid prepend to
the collected list. -/
theorem bytesSoFarList_cons_progress (oid : String) (b d : Int) (out : List OutMsg) :
    bytesSoFarList oid (OutMsg.progress oid b d :: out) = b :: bytesSoFarList oid out := by
  simp [bytesSoFarList, List.filterMap_cons]

/-- The bytesSoFar values emitted by the watcher are exactly the sampled
cumulative counts, in order. -/
theorem bytesSoFarList_watch (oid : String) (last : Int) (ss : List Int) :
    bytesSoFarList oid (watchProgressFrom oid last ss) = ss := by
  induction ss generalizing last with
  | nil => rfl
  | cons s rest ih =>
    simp only [watchProgressFrom]
    rw [bytesSoFarList_cons_progress, ih s]

/-- Each emitted bytesSinceLast is the difference between the bytesSoFar of
its message and the previous one. -/
theorem progressDeltasFrom_watch (oid : String) (last : Int) (ss : List Int) :
    progressDeltasFrom last (watchProgressFrom oid last ss) := by
  induction ss generalizing last with
  | nil => simp [watchProgressFrom, progressDeltasFrom]
  | cons s rest ih =>
    simp only [watchProgressFrom, progressDeltasFrom]
    exact ⟨trivial, ih s⟩

/-- C1 counterexample: a panic during the Put of the first upload makes the
session loop return the panic error: no Error message is emitted for the
in-flight object identifier a1, and the second upload is never processed
(its complete message is absent: the whole output is empty). -/
theorem c1_counterexample :
    transferLoop
      [InMsg.upload ⟨"a1", 4, "/tmp/f"⟩
         ⟨Except.ok "swift://c/a1", Except.ok (), PutOutcome.panicked "boom", []⟩,
       InMsg.upload ⟨"a2", 4, "/tmp/g"⟩
         ⟨Except.ok "swift://c/a2", Except.ok (), PutOutcome.ok, [4]⟩]
      = ([], some "panic: boom") := by
  rfl

/-- C1 (amended): an unexpected fault (a recovered runtime panic) during the
handling of an Upload or Download message is caught at the message boundary
by handlePanic and converted into an error returned from handle; the session
loop then terminates with that error: the only messages emitted are the
progress messages sampled before the fault (in particular no Error message
is addressed to the in-flight object identifier) and no further input
message is processed. -/
theorem c1_panic_aborts_session
    (um : UploadMsg) (uenv : UploadEnv) (dm : DownloadMsg) (denv : DownloadEnv)
    (u v ap p q : String) (urest drest : List InMsg)
    (hju : uenv.joinRes = Except.ok u) (hou : uenv.openRes = Except.ok ())
    (hpu : uenv.putRes = PutOutcome.panicked p)
    (hab : denv.absRes = Except.ok ap) (hjd : denv.joinRes = Except.ok v)
    (hcd : denv.createRes = Except.ok ())
    (hgd : denv.getRes = PutOutcome.panicked q) :
    transferLoop (InMsg.upload um uenv :: urest)
      = (watchProgress um.oid uenv.samples, some (panicToError p)) ∧
    (∀ x ∈ (transferLoop (InMsg.upload um uenv :: urest)).1,
      ∃ b d, x = OutMsg.progress um.oid b d) ∧
    transferLoop (InMsg.download dm denv :: drest)
      = (watchProgress dm.oid denv.samples, some (panicToError q)) ∧
    (∀ x ∈ (transferLoop (InMsg.download dm denv :: drest)).1,
      ∃ b d, x = OutMsg.progress dm.oid b d) := by
  have hu : handle (InMsg.upload um uenv)
      = (watchProgress um.oid uenv.samples, some (panicToError p)) := by
    simp [handle, handleUpload, hju, hou, hpu]
  have hdl : handle (InMsg.download dm denv)
      = (watchProgress dm.oid denv.samples, some (panicToError q)) := by
    simp [handle, handleDownload, hab, hjd, hcd, hgd]
  have tu : transferLoop (InMsg.upload um uenv :: urest)
      = (watchProgress um.oid uenv.samples, some (panicToError p)) := by
    simp [transferLoop, hu]
  have td : transferLoop (InMsg.download dm denv :: drest)
      = (watchProgress dm.oid denv.samples, some (panicToError q)) := by
    simp [transferLoop, hdl]
  refine ⟨tu, ?_, td, ?_⟩
  · rw [tu]
    exact watchProgressFrom_progress um.oid 0 uenv.samples
  · rw [td]
    exact watchProgressFrom_progress dm.oid 0 denv.samples

/-- Witness for C1: one panicking upload and one panicking download, each
followed by unprocessed input. -/
theorem c1_panic_aborts_session_witness :
    transferLoop
      [InMsg.upload ⟨"a1", 4, "/tmp/f"⟩
         ⟨Except.ok "u", Except.ok (), PutOutcome.panicked "boom", []⟩,
       InMsg.terminate]
      = ([], some (panicToError "boom")) ∧
    transferLoop
      [InMsg.download ⟨"d1", 4⟩
         ⟨Except.ok "/abs/d1", Except.ok "u", Except.ok (),
          PutOutcome.panicked "crash", none, []⟩,
       InMsg.terminate]
      = ([], some (panicToError "crash")) :=
  ⟨(c1_panic_aborts_session ⟨"a1", 4, "/tmp/f"⟩
      ⟨Except.ok "u", Except.ok (), PutOutcome.panicked "boom", []⟩
      ⟨"d1", 4⟩
      ⟨Except.ok "/abs/d1", Except.ok "u", Except.ok (),
        PutOutcome.panicked "crash", none, []⟩
      "u" "u" "/abs/d1" "boom" "crash" [InMsg.terminate] [InMsg.terminate]
      rfl rfl rfl rfl rfl rfl rfl).1,
   (c1_panic_aborts_session ⟨"a1", 4, "/tmp/f"⟩
      ⟨Except.ok "u", Except.ok (), PutOutcome.panicked "boom", []⟩
      ⟨"d1", 4⟩
      ⟨Except.ok "/abs/d1", Except.ok "u", Except.ok (),
        PutOutcome.panicked "crash", none, []⟩
      "u" "u" "/abs/d1" "boom" "crash" [InMsg.terminate] [InMsg.terminate]
      rfl rfl rfl rfl rfl rfl rfl).2.2.1⟩

/-- C3 counterexample: when the local source file fails to open, the upload
handling emits no message at all, so there is zero (not exactly one)
terminal complete or error message for the object identifier; handle
instead returns an error. -/
theorem c3_counterexample :
    handleUpload ⟨"abc", 4, "/tmp/f"⟩
        ⟨Except.ok "u", Except.error "no such file", PutOutcome.ok, []⟩
      = ([], some "opening source file: no such file") ∧
    ((handleUpload ⟨"abc", 4, "/tmp/f"⟩
        ⟨Except.ok "u", Except.error "no such file", PutOutcome.ok, []⟩).1.filter
          (isTerminal "abc")).length = 0 :=
  ⟨rfl, rfl⟩

/-- C3 (amended): provided the upload handling does not panic and the local
source file opens successfully, the emitted messages are progress messages
followed by exactly one terminal complete or error message for the object
identifier, never both kinds; the progress messages carry the sampled
cumulative totals as bytesSoFar, non-decreasing whenever the counter samples
are non-decreasing from zero, and each bytesSinceLast is the delta since the
previous sample. When the local file fails to open (or a panic occurs), no
terminal message is emitted for the identifier. -/
theorem c3_upload_progress_terminal (m : UploadMsg) (env : UploadEnv)
    (ho : env.openRes = Except.ok ())
    (hnp : ∀ p, env.putRes ≠ PutOutcome.panicked p)
    (hmono : List.Chain' (fun a b => a ≤ b) (0 :: env.samples)) :
    ∃ ps term,
      (handleUpload m env).1 = ps ++ [term] ∧
      (handleUpload m env).2 = none ∧
      (∀ x ∈ ps, isTerminal m.oid x = false) ∧
      isTerminal m.oid term = true ∧
      (term = OutMsg.complete m.oid "" ∨ ∃ e, term = OutMsg.error m.oid e) ∧
      List.Chain' (fun a b => a ≤ b) (bytesSoFarList m.oid ps) ∧
      progressDeltasFrom 0 ps := by
  cases hj : env.joinRes with
  | error e =>
    refine ⟨[], OutMsg.error m.oid e, ?_, ?_, ?_, ?_, ?_, ?_, ?_⟩
    · simp [handleUpload, hj]
    · simp [handleUpload, hj]
    · intro x hx
      cases hx
    · simp [isTerminal]
    · exact Or.inr ⟨e, rfl⟩
    · simp [bytesSoFarList]
    · simp [progressDeltasFrom]
  | ok u =>
    cases hput : env.putRes with
    | panicked p => exact absurd hput (hnp p)
    | err e =>
      refine ⟨watchProgress m.oid env.samples, OutMsg.error m.oid e,
        ?_, ?_, ?_, ?_, ?_, ?_, ?_⟩
      · simp [handleUpload, hj, ho, hput]
      · simp [handleUpload, hj, ho, hput]
      · exact watchProgress_not_terminal m.oid m.oid env.samples 0
      · simp [isTerminal]
      · exact Or.inr ⟨e, rfl⟩
      · rw [watchProgress, bytesSoFarList_watch]
        exact hmono.tail
      · exact progressDeltasFrom_watch m.oid 0 env.samples
    | ok =>
      refine ⟨watchProgress m.oid env.samples, OutMsg.complete m.oid "",
        ?_, ?_, ?_, ?_, ?_, ?_, ?_⟩
      · simp [handleUpload, hj, ho, hput]
      · simp [handleUpload, hj, ho, hput]
      · exact watchProgress_not_terminal m.oid m.oid env.samples 0
      · simp [isTerminal]
      · exact Or.inl rfl
      · rw [watchProgress, bytesSoFarList_watch]
        exact hmono.tail
      · exact progressDeltasFrom_watch m.oid 0 env.samples

/-- Witness for C3: a successful upload with two non-decreasing samples. -/
theorem c3_upload_progress_terminal_witness :
    ∃ ps term,
      (handleUpload ⟨"abc", 4, "/tmp/f"⟩
        ⟨Except.ok "u", Except.ok (), PutOutcome.ok, [2, 4]⟩).1 = ps ++ [term] ∧
      (handleUpload ⟨"abc", 4, "/tmp/f"⟩
        ⟨Except.ok "u", Except.ok (), PutOutcome.ok, [2, 4]⟩).2 = none ∧
      (∀ x ∈ ps, isTerminal "abc" x = false) ∧
      isTerminal "abc" term = true ∧
      (term = OutMsg.complete "abc" "" ∨ ∃ e, term = OutMsg.error "abc" e) ∧
      List.Chain' (fun a b => a ≤ b) (bytesSoFarList "abc" ps) ∧
      progressDeltasFrom 0 ps :=
  c3_upload_progress_terminal ⟨"abc", 4, "/tmp/f"⟩
    ⟨Except.ok "u", Except.ok (), PutOutcome.ok, [2, 4]⟩ rfl
    (fun _ h => PutOutcome.noConfusion h)
    (by
      show List.Chain' (fun a b => a ≤ b) [0, 2, 4]
      refine List.chain'_cons.mpr ⟨by norm_num, ?_⟩
      refine List.chain'_cons.mpr ⟨by norm_num, ?_⟩
      exact List.chain'_singleton 4)

end Tanker
